import Mathlib

/-!
Verification of the feature-extraction and similarity-scoring engine of
compare_gpx_routes.py (the stasko repository).

The Python code computes over IEEE floats; the embedding idealizes float
arithmetic as real arithmetic (`ℝ`), the standard shallow embedding for this
kind of numeric code.  A grade value that may be NaN (the first point of a
segment has no defined slope) is modelled as `Option ℝ`, with `none` standing
for NaN, so that the `math.isnan` filter in the source becomes `filterMap`.
Python `round(x, 2)` rounds half to even; `roundHalfEven` below models it
exactly.  The module-level functions keep their source names: `haversine`,
`extract_features`, `similarity_component`, `compute_similarity_score`.
-/

noncomputable section

/-- Embedding of `math.radians`: degrees to radians, `x * pi / 180`. -/
def radians (d : ℝ) : ℝ := d * (Real.pi / 180)

/-- Embedding of `math.atan2 y x` on the reals (signed-zero distinctions of
the float version collapse; all uses in this file have `0 ≤ y` and `0 ≤ x`). -/
def atan2 (y x : ℝ) : ℝ :=
  if 0 < x then Real.arctan (y / x)
  else if x < 0 ∧ 0 ≤ y then Real.arctan (y / x) + Real.pi
  else if x < 0 ∧ y < 0 then Real.arctan (y / x) - Real.pi
  else if 0 < y then Real.pi / 2
  else if y < 0 then -(Real.pi / 2)
  else 0

/-- `haversine(lat1, lon1, lat2, lon2)` from compare_gpx_routes.py:
great-circle distance in km between two lat/lon points, Earth radius 6371 km. -/
def haversine (lat1 lon1 lat2 lon2 : ℝ) : ℝ :=
  let R : ℝ := 6371
  let phi1 := radians lat1
  let phi2 := radians lat2
  let dphi := radians (lat2 - lat1)
  let dlmb := radians (lon2 - lon1)
  let a := Real.sin (dphi / 2) ^ 2 +
    Real.cos phi1 * Real.cos phi2 * Real.sin (dlmb / 2) ^ 2
  let c := 2 * atan2 (Real.sqrt a) (Real.sqrt (1 - a))
  R * c

/-- One row of a `*_route_data.csv` table (the SampleRow of the data model).
`grade_percent` is `none` when the cell holds NaN. -/
structure SampleRow where
  distance_km : ℝ
  elevation_m : ℝ
  grade_percent : Option ℝ
  cumulative_elev_gain_m : ℝ
  latitude : ℝ
  longitude : ℝ

/-- The 11-key feature vector returned by `extract_features`. -/
structure FeatureVector where
  total_distance_km : ℝ
  total_elev_gain_m : ℝ
  km_effort : ℝ
  max_elev_m : ℝ
  min_elev_m : ℝ
  elev_range_m : ℝ
  avg_grade : ℝ
  std_grade : ℝ
  steep10_share : ℝ
  steep20_share : ℝ
  sinuosity : ℝ

/-- The `DataError` of the error taxonomy: a well-formed table with zero rows
(the `ValueError` raised by `extract_features` on empty data). -/
inductive ExtractError where
  | dataError
deriving DecidableEq

/-- Python `max` over a non-empty list, written as head plus tail. -/
def pyMax (x : ℝ) (xs : List ℝ) : ℝ := xs.foldl max x

/-- Python `min` over a non-empty list, written as head plus tail. -/
def pyMin (x : ℝ) (xs : List ℝ) : ℝ := xs.foldl min x

/-- The body of `extract_features` on a non-empty row list `r0 :: rs`,
mirroring lines 42-82 of compare_gpx_routes.py column by column. -/
def extractFeats (r0 : SampleRow) (rs : List SampleRow) : FeatureVector :=
  let total_distance_km := pyMax r0.distance_km (rs.map (fun r => r.distance_km))
  let total_elev_gain_m :=
    pyMax r0.cumulative_elev_gain_m (rs.map (fun r => r.cumulative_elev_gain_m))
  let max_elev := pyMax r0.elevation_m (rs.map (fun r => r.elevation_m))
  let min_elev := pyMin r0.elevation_m (rs.map (fun r => r.elevation_m))
  let elevation_range_m := max_elev - min_elev
  let g_vals := (r0 :: rs).filterMap (fun r => r.grade_percent)
  let avg_grade : ℝ :=
    if g_vals.isEmpty then 0 else g_vals.sum / (g_vals.length : ℝ)
  let var : ℝ :=
    if g_vals.isEmpty then 0
    else (g_vals.map (fun g => (g - avg_grade) ^ 2)).sum / (g_vals.length : ℝ)
  let std_grade := Real.sqrt var
  let uphill_grades := g_vals.filter (fun g => decide (0 < g))
  let steep10_share : ℝ :=
    if uphill_grades.isEmpty then 0
    else ((uphill_grades.filter (fun g => decide (10 ≤ g))).length : ℝ) /
      (uphill_grades.length : ℝ)
  let steep20_share : ℝ :=
    if uphill_grades.isEmpty then 0
    else ((uphill_grades.filter (fun g => decide (20 ≤ g))).length : ℝ) /
      (uphill_grades.length : ℝ)
  let lastRow := rs.getLastD r0
  let beeline_km := haversine r0.latitude r0.longitude lastRow.latitude lastRow.longitude
  let sinuosity := if 0 < beeline_km then total_distance_km / beeline_km else 1
  let km_effort := total_distance_km + total_elev_gain_m / 100
  { total_distance_km := total_distance_km
    total_elev_gain_m := total_elev_gain_m
    km_effort := km_effort
    max_elev_m := max_elev
    min_elev_m := min_elev
    elev_range_m := elevation_range_m
    avg_grade := avg_grade
    std_grade := std_grade
    steep10_share := steep10_share
    steep20_share := steep20_share
    sinuosity := sinuosity }

/-- `extract_features` from compare_gpx_routes.py, at the Route level: the CSV
reading is external; an empty row list raises (`DataError`), otherwise the
feature vector is computed by `extractFeats`. -/
def extract_features (route : List SampleRow) : Except ExtractError FeatureVector :=
  match route with
  | [] => Except.error ExtractError.dataError
  | r0 :: rs => Except.ok (extractFeats r0 rs)

/-- `similarity_component(a, b, rel_cap)` from compare_gpx_routes.py. -/
def similarity_component (a b rel_cap : ℝ) : ℝ :=
  if a = 0 ∧ b = 0 then 1
  else
    let denom := max ((a + b) / 2) 1e-9
    let rel_diff := min (|a - b| / denom) rel_cap
    let sim := 1 - rel_diff / rel_cap
    max 0 (min 1 sim)

/-- Python `round` to an integer, half to even. -/
def roundHalfEven (x : ℝ) : ℤ :=
  let n := ⌊x⌋
  if x - n < 1 / 2 then n
  else if 1 / 2 < x - n then n + 1
  else if n % 2 = 0 then n else n + 1

/-- Python `round(x, 2)`: round to two decimal places, half to even. -/
def pyRound2 (x : ℝ) : ℝ := (roundHalfEven (x * 100) : ℝ) / 100

/-- `compute_similarity_score(f1, f2)` from compare_gpx_routes.py: the
weighted rubric over the 7 scored keys, mapped to 0-100 and rounded. -/
def compute_similarity_score (f1 f2 : FeatureVector) : ℝ :=
  let total :=
    0 + 0.25 * similarity_component f1.total_distance_km f2.total_distance_km 2
    + 0.25 * similarity_component f1.total_elev_gain_m f2.total_elev_gain_m 2
    + 0.15 * similarity_component f1.km_effort f2.km_effort 2
    + 0.10 * similarity_component f1.elev_range_m f2.elev_range_m 2
    + 0.10 * similarity_component f1.avg_grade f2.avg_grade 2
    + 0.10 * similarity_component f1.steep10_share f2.steep10_share 2
    + 0.05 * similarity_component f1.sinuosity f2.sinuosity 2
  pyRound2 (total * 100)

end

/-! ### Helper lemmas about the similarity component and rounding -/

/-- Python-round bounds: the half-to-even integer is within 1/2 of the input. -/
theorem roundHalfEven_bounds (x : ℝ) :
    x - 1 / 2 ≤ (roundHalfEven x : ℝ) ∧ (roundHalfEven x : ℝ) ≤ x + 1 / 2 := by
  have h1 : (⌊x⌋ : ℝ) ≤ x := Int.floor_le x
  have h2 : x < (⌊x⌋ : ℝ) + 1 := Int.lt_floor_add_one x
  simp only [roundHalfEven]
  split_ifs with hlt hgt heven <;> constructor <;> push_cast <;> linarith

/-- Rounding an integer value returns it unchanged. -/
theorem roundHalfEven_intCast (n : ℤ) : roundHalfEven (n : ℝ) = n := by
  simp only [roundHalfEven, Int.floor_intCast, sub_self]
  norm_num

/-- A value equal on both sides has component similarity exactly 1. -/
theorem similarity_component_self (x : ℝ) : similarity_component x x 2 = 1 := by
  simp only [similarity_component]
  by_cases h : x = 0 ∧ x = 0
  · rw [if_pos h]
  · rw [if_neg h]
    simp only [sub_self, abs_zero, zero_div]
    rw [min_eq_left (by norm_num : (0:ℝ) ≤ 2)]
    norm_num

/-- The component similarity is clamped into `[0, 1]`. -/
theorem similarity_component_bounds (a b c : ℝ) :
    0 ≤ similarity_component a b c ∧ similarity_component a b c ≤ 1 := by
  simp only [similarity_component]
  split_ifs with h
  · norm_num
  · exact ⟨le_max_left 0 _, max_le (by norm_num) (min_le_left 1 _)⟩

/-- The component similarity is symmetric in its two values. -/
theorem similarity_component_comm (a b c : ℝ) :
    similarity_component a b c = similarity_component b a c := by
  simp only [similarity_component]
  by_cases h : a = 0 ∧ b = 0
  · rw [if_pos h, if_pos ⟨h.2, h.1⟩]
  · rw [if_neg h, if_neg (fun hb => h ⟨hb.2, hb.1⟩)]
    rw [abs_sub_comm b a, add_comm b a]

/-- Scoring any feature vector against itself gives exactly 100. -/
theorem compute_similarity_score_self (f : FeatureVector) :
    compute_similarity_score f f = 100 := by
  simp only [compute_similarity_score, similarity_component_self]
  have h : ((0:ℝ) + 0.25 * 1 + 0.25 * 1 + 0.15 * 1 + 0.10 * 1 + 0.10 * 1 + 0.10 * 1
      + 0.05 * 1) * 100 = ((10000 : ℤ) : ℝ) / 100 := by norm_num
  rw [h]
  simp only [pyRound2]
  rw [show ((10000 : ℤ) : ℝ) / 100 * 100 = ((10000 : ℤ) : ℝ) by ring, roundHalfEven_intCast]
  norm_num

/-- The weighted total, hence the rounded score, stays inside `[0, 100]`. -/
theorem compute_similarity_score_bounds (f1 f2 : FeatureVector) :
    0 ≤ compute_similarity_score f1 f2 ∧ compute_similarity_score f1 f2 ≤ 100 := by
  obtain ⟨a0, a1⟩ := similarity_component_bounds f1.total_distance_km f2.total_distance_km 2
  obtain ⟨b0, b1⟩ := similarity_component_bounds f1.total_elev_gain_m f2.total_elev_gain_m 2
  obtain ⟨c0, c1⟩ := similarity_component_bounds f1.km_effort f2.km_effort 2
  obtain ⟨d0, d1⟩ := similarity_component_bounds f1.elev_range_m f2.elev_range_m 2
  obtain ⟨e0, e1⟩ := similarity_component_bounds f1.avg_grade f2.avg_grade 2
  obtain ⟨g0, g1⟩ := similarity_component_bounds f1.steep10_share f2.steep10_share 2
  obtain ⟨s0, s1⟩ := similarity_component_bounds f1.sinuosity f2.sinuosity 2
  simp only [compute_similarity_score, pyRound2]
  obtain ⟨hlo, hhi⟩ := roundHalfEven_bounds
    ((0 + 0.25 * similarity_component f1.total_distance_km f2.total_distance_km 2
      + 0.25 * similarity_component f1.total_elev_gain_m f2.total_elev_gain_m 2
      + 0.15 * similarity_component f1.km_effort f2.km_effort 2
      + 0.10 * similarity_component f1.elev_range_m f2.elev_range_m 2
      + 0.10 * similarity_component f1.avg_grade f2.avg_grade 2
      + 0.10 * similarity_component f1.steep10_share f2.steep10_share 2
      + 0.05 * similarity_component f1.sinuosity f2.sinuosity 2) * 100 * 100)
  set r := roundHalfEven
    ((0 + 0.25 * similarity_component f1.total_distance_km f2.total_distance_km 2
      + 0.25 * similarity_component f1.total_elev_gain_m f2.total_elev_gain_m 2
      + 0.15 * similarity_component f1.km_effort f2.km_effort 2
      + 0.10 * similarity_component f1.elev_range_m f2.elev_range_m 2
      + 0.10 * similarity_component f1.avg_grade f2.avg_grade 2
      + 0.10 * similarity_component f1.steep10_share f2.steep10_share 2
      + 0.05 * similarity_component f1.sinuosity f2.sinuosity 2) * 100 * 100) with hr
  have hrlo : (-1 : ℤ) < r := by
    have : (-1 : ℝ) < (r : ℝ) := by nlinarith
    exact_mod_cast this
  have hrhi : r < 10001 := by
    have : (r : ℝ) < ((10001 : ℤ) : ℝ) := by push_cast; nlinarith
    exact_mod_cast this
  constructor
  · have h0 : (0 : ℤ) ≤ r := by omega
    have h0r : (0 : ℝ) ≤ (r : ℝ) := by exact_mod_cast h0
    linarith
  · have h1 : r ≤ 10000 := by omega
    have h1r : (r : ℝ) ≤ ((10000 : ℤ) : ℝ) := by exact_mod_cast h1
    push_cast at h1r
    linarith

/-! ### Claim theorems -/

/-- Claim C1: every per-feature self similarity is 1, and scoring any feature
vector against itself returns exactly 100.00 (the weights sum to 1 and
rounding 100 gives 100). -/
theorem claim_C1_self_score_100 :
    (∀ x : ℝ, similarity_component x x 2 = 1) ∧
    (∀ f : FeatureVector, compute_similarity_score f f = 100) :=
  ⟨similarity_component_self, compute_similarity_score_self⟩

/-- Claim C2: for all feature vectors the similarity score lies in `[0, 100]`,
resting on each similarity component lying in `[0, 1]`. -/
theorem claim_C2_score_in_range :
    (∀ a b : ℝ, 0 ≤ similarity_component a b 2 ∧ similarity_component a b 2 ≤ 1) ∧
    (∀ f1 f2 : FeatureVector,
      0 ≤ compute_similarity_score f1 f2 ∧ compute_similarity_score f1 f2 ≤ 100) :=
  ⟨fun a b => similarity_component_bounds a b 2, compute_similarity_score_bounds⟩

/-- Claim C3: the feature extractor applied to an empty route sequence fails
with the data error and produces no feature vector. -/
theorem claim_C3_empty_route_data_error :
    extract_features [] = Except.error ExtractError.dataError := rfl

/-- Claim C9 (implicit): the overall score is symmetric in its two feature
vectors, not only the per-feature components. -/
theorem claim_C9_score_symmetric (f1 f2 : FeatureVector) :
    compute_similarity_score f1 f2 = compute_similarity_score f2 f1 := by
  simp only [compute_similarity_score]
  rw [similarity_component_comm f1.total_distance_km f2.total_distance_km 2,
    similarity_component_comm f1.total_elev_gain_m f2.total_elev_gain_m 2,
    similarity_component_comm f1.km_effort f2.km_effort 2,
    similarity_component_comm f1.elev_range_m f2.elev_range_m 2,
    similarity_component_comm f1.avg_grade f2.avg_grade 2,
    similarity_component_comm f1.steep10_share f2.steep10_share 2,
    similarity_component_comm f1.sinuosity f2.sinuosity 2]

/-- When the cap does not bind and the true average is the denominator, the
component is the plain linear form. -/
theorem similarity_component_formula (a b : ℝ) (hne : ¬(a = 0 ∧ b = 0))
    (hden : 1e-9 ≤ (a + b) / 2) (hcap : |a - b| / ((a + b) / 2) ≤ 2) :
    similarity_component a b 2 = 1 - |a - b| / ((a + b) / 2) / 2 := by
  simp only [similarity_component, if_neg hne]
  rw [max_eq_left hden, min_eq_left hcap]
  have hpos : (0 : ℝ) ≤ (a + b) / 2 := le_trans (by norm_num) hden
  have hrel : 0 ≤ |a - b| / ((a + b) / 2) := div_nonneg (abs_nonneg _) hpos
  rw [min_eq_right (by linarith : 1 - |a - b| / ((a + b) / 2) / 2 ≤ 1)]
  rw [max_eq_right (by linarith : (0:ℝ) ≤ 1 - |a - b| / ((a + b) / 2) / 2)]

/-- An upper bound on the rounded two-decimal value from a bound on the raw
value. -/
theorem pyRound2_lt (x c : ℝ) (h : x * 100 + 1 / 2 < 100 * c) : pyRound2 x < c := by
  obtain ⟨_, hhi⟩ := roundHalfEven_bounds (x * 100)
  simp only [pyRound2]
  linarith

/-- Claim C10 (implicit): with a non-positive sum and not both values zero,
the denominator floors to `1e-9`, the component collapses to
`max 0 (1 - |a - b| / (2e-9))`, and it is 0 whenever `|a - b| ≥ 2e-9`. -/
theorem claim_C10_floor_denominator (a b : ℝ) (hab : a + b ≤ 0)
    (hz : ¬(a = 0 ∧ b = 0)) :
    similarity_component a b 2 = max 0 (1 - |a - b| / (2 * 1e-9)) ∧
    (2 * 1e-9 ≤ |a - b| → similarity_component a b 2 = 0) := by
  have hpos : (0:ℝ) < 1e-9 := by norm_num
  have habs : 0 ≤ |a - b| := abs_nonneg _
  have hhalf : |a - b| / (2 * 1e-9) = |a - b| / 1e-9 / 2 := by
    rw [div_div, mul_comm]
  have hmain : similarity_component a b 2 = max 0 (1 - |a - b| / (2 * 1e-9)) := by
    simp only [similarity_component, if_neg hz]
    rw [max_eq_right (by linarith : (a + b) / 2 ≤ 1e-9)]
    by_cases hc : |a - b| / 1e-9 ≤ 2
    · rw [min_eq_left hc]
      have h1 : 0 ≤ |a - b| / 1e-9 := div_nonneg habs hpos.le
      rw [min_eq_right (by linarith : 1 - |a - b| / 1e-9 / 2 ≤ 1), hhalf]
    · push_neg at hc
      rw [min_eq_right hc.le]
      have hneg : 1 - |a - b| / (2 * 1e-9) ≤ 0 := by rw [hhalf]; linarith
      rw [max_eq_left hneg]
      norm_num
  refine ⟨hmain, fun hge => ?_⟩
  rw [hmain, max_eq_left]
  have h2 : (0:ℝ) < 2 * 1e-9 := by norm_num
  have := (one_le_div h2).mpr hge
  linarith

/-- Claim C10 witness: `avg_grade` values −5 and +5 hit the floored
denominator and get component similarity 0. -/
theorem claim_C10_floor_denominator_witness :
    similarity_component (-5) 5 2 = max 0 (1 - |(-5 : ℝ) - 5| / (2 * 1e-9)) ∧
    (2 * 1e-9 ≤ |(-5 : ℝ) - 5| → similarity_component (-5) 5 2 = 0) :=
  claim_C10_floor_denominator (-5) 5 (by norm_num) (by norm_num)

/-- Claim C4 counterexample: for total distances 1 km and 50 km the relative
difference is 49 / 25.5 ≈ 192%, short of the 200% cap, so the distance
component is 2/51 ≈ 0.039, not 0 as the claim states. -/
theorem claim_C4_counterexample :
    similarity_component 1 50 2 = 2 / 51 ∧ similarity_component 1 50 2 ≠ 0 := by
  have h : similarity_component 1 50 2 = 1 - |(1:ℝ) - 50| / (((1:ℝ) + 50) / 2) / 2 := by
    refine similarity_component_formula 1 50 (by norm_num) (by norm_num) ?_
    rw [abs_of_nonpos (by norm_num : (1:ℝ) - 50 ≤ 0)]
    norm_num
  rw [h, abs_of_nonpos (by norm_num : (1:ℝ) - 50 ≤ 0)]
  norm_num

/-- Claim C4 (amended): with the fixed distance/gain/effort values, the gain
component is driven to 0 by the cap, the distance component equals 2/51
(its 192% relative difference is below the cap), and the total score is
below 40 whatever the remaining scored features are. -/
theorem claim_C4_extreme_mismatch (f1 f2 : FeatureVector)
    (h1d : f1.total_distance_km = 1) (h1g : f1.total_elev_gain_m = 0)
    (h1k : f1.km_effort = 1)
    (h2d : f2.total_distance_km = 50) (h2g : f2.total_elev_gain_m = 3000)
    (h2k : f2.km_effort = 80) :
    similarity_component f1.total_elev_gain_m f2.total_elev_gain_m 2 = 0 ∧
    similarity_component f1.total_distance_km f2.total_distance_km 2 = 2 / 51 ∧
    compute_similarity_score f1 f2 < 40 := by
  have hdist : similarity_component 1 50 2 = 2 / 51 := by
    have h : similarity_component 1 50 2 = 1 - |(1:ℝ) - 50| / (((1:ℝ) + 50) / 2) / 2 := by
      refine similarity_component_formula 1 50 (by norm_num) (by norm_num) ?_
      rw [abs_of_nonpos (by norm_num : (1:ℝ) - 50 ≤ 0)]
      norm_num
    rw [h, abs_of_nonpos (by norm_num : (1:ℝ) - 50 ≤ 0)]
    norm_num
  have hgain : similarity_component 0 3000 2 = 0 := by
    have h : similarity_component 0 3000 2 = 1 - |(0:ℝ) - 3000| / (((0:ℝ) + 3000) / 2) / 2 := by
      refine similarity_component_formula 0 3000 (by norm_num) (by norm_num) ?_
      rw [abs_of_nonpos (by norm_num : (0:ℝ) - 3000 ≤ 0)]
      norm_num
    rw [h, abs_of_nonpos (by norm_num : (0:ℝ) - 3000 ≤ 0)]
    norm_num
  have heff : similarity_component 1 80 2 = 2 / 81 := by
    have h : similarity_component 1 80 2 = 1 - |(1:ℝ) - 80| / (((1:ℝ) + 80) / 2) / 2 := by
      refine similarity_component_formula 1 80 (by norm_num) (by norm_num) ?_
      rw [abs_of_nonpos (by norm_num : (1:ℝ) - 80 ≤ 0)]
      norm_num
    rw [h, abs_of_nonpos (by norm_num : (1:ℝ) - 80 ≤ 0)]
    norm_num
  refine ⟨by rw [h1g, h2g]; exact hgain, by rw [h1d, h2d]; exact hdist, ?_⟩
  obtain ⟨d0, d1⟩ := similarity_component_bounds f1.elev_range_m f2.elev_range_m 2
  obtain ⟨e0, e1⟩ := similarity_component_bounds f1.avg_grade f2.avg_grade 2
  obtain ⟨g0, g1⟩ := similarity_component_bounds f1.steep10_share f2.steep10_share 2
  obtain ⟨s0, s1⟩ := similarity_component_bounds f1.sinuosity f2.sinuosity 2
  simp only [compute_similarity_score]
  rw [h1d, h1g, h1k, h2d, h2g, h2k, hdist, hgain, heff]
  apply pyRound2_lt
  linarith

/-! ### Helper lemmas about haversine and the extractor -/

/-- The haversine distance from a point to itself is 0. -/
theorem haversine_self (lat lon : ℝ) : haversine lat lon lat lon = 0 := by
  simp only [haversine, radians, sub_self, zero_mul, zero_div, Real.sin_zero]
  norm_num [atan2, Real.sqrt_zero, Real.sqrt_one, Real.arctan_zero]

/-- The haversine distance is symmetric in its two points. -/
theorem haversine_comm (lat1 lon1 lat2 lon2 : ℝ) :
    haversine lat1 lon1 lat2 lon2 = haversine lat2 lon2 lat1 lon1 := by
  have key : ∀ u v : ℝ,
      Real.sin (radians (u - v) / 2) ^ 2 = Real.sin (radians (v - u) / 2) ^ 2 := by
    intro u v
    have h : radians (u - v) / 2 = -(radians (v - u) / 2) := by
      simp only [radians]; ring
    rw [h, Real.sin_neg]
    ring
  simp only [haversine]
  rw [key lat2 lat1, key lon2 lon1,
    mul_comm (Real.cos (radians lat1)) (Real.cos (radians lat2))]

/-- The head of a non-empty fold by `max` bounds the fold from below. -/
theorem le_pyMax (x : ℝ) (xs : List ℝ) : x ≤ pyMax x xs := by
  induction xs generalizing x with
  | nil => simp [pyMax]
  | cons y ys ih =>
    simp only [pyMax, List.foldl_cons]
    exact le_trans (le_max_left x y) (ih (max x y))

/-- The head of a non-empty fold by `min` bounds the fold from above. -/
theorem pyMin_le (x : ℝ) (xs : List ℝ) : pyMin x xs ≤ x := by
  induction xs generalizing x with
  | nil => simp [pyMin]
  | cons y ys ih =>
    simp only [pyMin, List.foldl_cons]
    exact le_trans (ih (min x y)) (min_le_left x y)

/-- A guarded steep-share expression lies in `[0, 1]`. -/
theorem share_bounds (l : List ℝ) (p : ℝ → Bool) :
    0 ≤ (if l.isEmpty then (0:ℝ) else ((l.filter p).length : ℝ) / (l.length : ℝ)) ∧
    (if l.isEmpty then (0:ℝ) else ((l.filter p).length : ℝ) / (l.length : ℝ)) ≤ 1 := by
  cases l with
  | nil => simp
  | cons a as =>
    simp only [List.isEmpty_cons, if_neg (by simp : ¬(false = true))]
    have hlen : (0:ℝ) < ((a :: as).length : ℝ) := by
      simp only [List.length_cons]
      positivity
    constructor
    · positivity
    · rw [div_le_one hlen]
      exact_mod_cast List.length_filter_le p (a :: as)

/-- For a route whose endpoints share coordinates the guarded branch fires. -/
theorem extractFeats_sinuosity_loop (r0 : SampleRow) (rs : List SampleRow)
    (hlat : r0.latitude = (rs.getLastD r0).latitude)
    (hlon : r0.longitude = (rs.getLastD r0).longitude) :
    (extractFeats r0 rs).sinuosity = 1 := by
  simp only [extractFeats]
  rw [← hlat, ← hlon, haversine_self]
  norm_num

/-- Claim C8: the geodesic distance of a point to itself is 0, and the
distance is symmetric in its two coordinate pairs. -/
theorem claim_C8_haversine_zero_and_symm :
    (∀ lat lon : ℝ, haversine lat lon lat lon = 0) ∧
    (∀ lat1 lon1 lat2 lon2 : ℝ,
      haversine lat1 lon1 lat2 lon2 = haversine lat2 lon2 lat1 lon1) :=
  ⟨haversine_self, haversine_comm⟩

/-- Claim C6: on a non-empty route whose first and last rows carry the same
coordinates, extraction succeeds with `sinuosity = 1` instead of dividing. -/
theorem claim_C6_loop_sinuosity_one (r0 : SampleRow) (rs : List SampleRow)
    (hlat : r0.latitude = (rs.getLastD r0).latitude)
    (hlon : r0.longitude = (rs.getLastD r0).longitude) :
    ∃ fv, extract_features (r0 :: rs) = Except.ok fv ∧ fv.sinuosity = 1 :=
  ⟨extractFeats r0 rs, rfl, extractFeats_sinuosity_loop r0 rs hlat hlon⟩

/-- Claim C6 witness: a concrete single-point route gets `sinuosity = 1`. -/
theorem claim_C6_loop_sinuosity_one_witness :
    ∃ fv, extract_features [⟨0, 150, none, 0, 45, 9⟩] = Except.ok fv ∧
      fv.sinuosity = 1 :=
  claim_C6_loop_sinuosity_one ⟨0, 150, none, 0, 45, 9⟩ [] rfl rfl

/-- Claim C7: on any non-empty route whose rows have non-negative distance
and cumulative gain, the extracted vector satisfies the stated invariants. -/
theorem claim_C7_invariants (r0 : SampleRow) (rs : List SampleRow)
    (h : ∀ r ∈ r0 :: rs, 0 ≤ r.distance_km ∧ 0 ≤ r.cumulative_elev_gain_m) :
    ∃ fv, extract_features (r0 :: rs) = Except.ok fv ∧
      fv.elev_range_m = fv.max_elev_m - fv.min_elev_m ∧
      0 ≤ fv.elev_range_m ∧
      (0 ≤ fv.steep10_share ∧ fv.steep10_share ≤ 1) ∧
      (0 ≤ fv.steep20_share ∧ fv.steep20_share ≤ 1) ∧
      0 ≤ fv.total_distance_km ∧ 0 ≤ fv.total_elev_gain_m ∧ 0 ≤ fv.km_effort := by
  have hd0 : 0 ≤ r0.distance_km := (h r0 (List.mem_cons_self r0 rs)).1
  have hg0 : 0 ≤ r0.cumulative_elev_gain_m := (h r0 (List.mem_cons_self r0 rs)).2
  have hdist : 0 ≤ (extractFeats r0 rs).total_distance_km := by
    show (0:ℝ) ≤ pyMax r0.distance_km (rs.map (fun r => r.distance_km))
    exact le_trans hd0 (le_pyMax _ _)
  have hgain : 0 ≤ (extractFeats r0 rs).total_elev_gain_m := by
    show (0:ℝ) ≤ pyMax r0.cumulative_elev_gain_m (rs.map (fun r => r.cumulative_elev_gain_m))
    exact le_trans hg0 (le_pyMax _ _)
  refine ⟨extractFeats r0 rs, rfl, rfl, ?_, ?_, ?_, hdist, hgain, ?_⟩
  · have := pyMin_le r0.elevation_m (rs.map (fun r => r.elevation_m))
    have := le_pyMax r0.elevation_m (rs.map (fun r => r.elevation_m))
    show (0:ℝ) ≤ pyMax r0.elevation_m (rs.map (fun r => r.elevation_m)) -
      pyMin r0.elevation_m (rs.map (fun r => r.elevation_m))
    linarith
  · exact share_bounds _ _
  · exact share_bounds _ _
  · exact add_nonneg hdist (by positivity)

/-- Claim C5: on the concrete 2-point route of Scenario A, extraction yields
the stated six feature values and scoring the route against an identical
copy of itself yields exactly 100.00. -/
theorem claim_C5_scenario_idempotence :
    ∃ fv, extract_features
        [⟨0, 100, some 0, 0, 45, 9⟩, ⟨1, 200, some 10, 100, 45.01, 9⟩] =
          Except.ok fv ∧
      fv.total_distance_km = 1 ∧ fv.total_elev_gain_m = 100 ∧ fv.avg_grade = 5 ∧
      fv.steep10_share = 1 ∧ fv.steep20_share = 0 ∧ fv.km_effort = 2 ∧
      compute_similarity_score fv fv = 100 := by
  refine ⟨_, rfl, ?_, ?_, ?_, ?_, ?_, ?_, compute_similarity_score_self _⟩ <;>
    norm_num [extract_features, extractFeats, pyMax, pyMin, List.filterMap_cons,
      List.filter_cons, decide_eq_true_eq]

/-- Claim C4 witness: concrete vectors with the Scenario C values. -/
theorem claim_C4_extreme_mismatch_witness :
    similarity_component (0:ℝ) 3000 2 = 0 ∧
    similarity_component (1:ℝ) 50 2 = 2 / 51 ∧
    compute_similarity_score ⟨1, 0, 1, 0, 0, 0, 0, 0, 0, 0, 1⟩
      ⟨50, 3000, 80, 0, 0, 0, 0, 0, 0, 0, 1⟩ < 40 :=
  claim_C4_extreme_mismatch ⟨1, 0, 1, 0, 0, 0, 0, 0, 0, 0, 1⟩
    ⟨50, 3000, 80, 0, 0, 0, 0, 0, 0, 0, 1⟩ rfl rfl rfl rfl rfl rfl

/-- Claim C7 witness: a concrete one-row route with non-negative columns. -/
theorem claim_C7_invariants_witness :
    ∃ fv, extract_features [(⟨2, 300, some 5, 40, 45, 9⟩ : SampleRow)] = Except.ok fv ∧
      fv.elev_range_m = fv.max_elev_m - fv.min_elev_m ∧
      0 ≤ fv.elev_range_m ∧
      (0 ≤ fv.steep10_share ∧ fv.steep10_share ≤ 1) ∧
      (0 ≤ fv.steep20_share ∧ fv.steep20_share ≤ 1) ∧
      0 ≤ fv.total_distance_km ∧ 0 ≤ fv.total_elev_gain_m ∧ 0 ≤ fv.km_effort :=
  claim_C7_invariants ⟨2, 300, some 5, 40, 45, 9⟩ [] (fun r hr => by
    rw [List.mem_singleton] at hr
    subst hr
    exact ⟨by norm_num, by norm_num⟩)
